import Mathlib

/-!
Verification of `status_fetcher.py`: a status-aggregation script that polls
StatusPage.io-style summary endpoints and a regional SEFAZ monitor, normalizes
the status vocabularies, and assembles a snapshot document.

The network boundary is modelled by outcome types: a fetch either returns the
parsed JSON body (modelled as a structure with the fields the code reads) or
raises a `requests.exceptions.RequestException` (the `netErr` constructor).
Exceptions that the code can raise past its `try/except` (Python `ValueError`
from `datetime.strptime`) are modelled with `Except PyError`.
-/

namespace StatusFetcher

/-- Uncaught Python exceptions reachable in this code: `ValueError` raised by
`datetime.strptime` when a timestamp does not match the format string.
(`requests.exceptions.RequestException` is always caught, so it does not
appear here.) The payload records the offending time string. -/
inductive PyError where
  | valueError (msg : String)
deriving Repr, DecidableEq

/-- A date-time value, as produced by `datetime.strptime` with format
`%Y-%m-%dT%H:%M:%S`. -/
structure DT where
  year : Nat
  month : Nat
  day : Nat
  hour : Nat
  minute : Nat
  second : Nat
deriving Repr, DecidableEq

/-- Numeric value of a decimal digit character. -/
def digitVal (c : Char) : Nat := c.toNat - 48

/-- `%Y` directive of `strptime`: exactly four decimal digits. -/
def parseY : List Char → Option (Nat × List Char)
  | a :: b :: c :: d :: rest =>
    if a.isDigit ∧ b.isDigit ∧ c.isDigit ∧ d.isDigit then
      some (digitVal a * 1000 + digitVal b * 100 + digitVal c * 10 + digitVal d, rest)
    else none
  | _ => none

/-- `%m` directive: the alternatives `1[0-2]`, `0[1-9]`, `[1-9]`, tried in
order as in CPython's `_strptime` regular expression. -/
def parseMonth : List Char → Option (Nat × List Char)
  | '1' :: c :: rest =>
    if c = '0' ∨ c = '1' ∨ c = '2' then some (10 + digitVal c, rest)
    else some (1, c :: rest)
  | '0' :: c :: rest =>
    if '1' ≤ c ∧ c ≤ '9' then some (digitVal c, rest) else none
  | c :: rest =>
    if '1' ≤ c ∧ c ≤ '9' then some (digitVal c, rest) else none
  | [] => none

/-- `%d` directive: alternatives `3[01]`, `[12][0-9]`, `0[1-9]`, `[1-9]`. -/
def parseDay : List Char → Option (Nat × List Char)
  | '3' :: c :: rest =>
    if c = '0' ∨ c = '1' then some (30 + digitVal c, rest)
    else some (3, c :: rest)
  | '1' :: c :: rest =>
    if c.isDigit then some (10 + digitVal c, rest) else some (1, c :: rest)
  | '2' :: c :: rest =>
    if c.isDigit then some (20 + digitVal c, rest) else some (2, c :: rest)
  | '0' :: c :: rest =>
    if '1' ≤ c ∧ c ≤ '9' then some (digitVal c, rest) else none
  | c :: rest =>
    if '1' ≤ c ∧ c ≤ '9' then some (digitVal c, rest) else none
  | [] => none

/-- `%H` directive: alternatives `2[0-3]`, `[0-1][0-9]`, `[0-9]`. -/
def parseHour : List Char → Option (Nat × List Char)
  | '2' :: c :: rest =>
    if c = '0' ∨ c = '1' ∨ c = '2' ∨ c = '3' then some (20 + digitVal c, rest)
    else some (2, c :: rest)
  | '0' :: c :: rest =>
    if c.isDigit then some (digitVal c, rest) else some (0, c :: rest)
  | '1' :: c :: rest =>
    if c.isDigit then some (10 + digitVal c, rest) else some (1, c :: rest)
  | c :: rest =>
    if c.isDigit then some (digitVal c, rest) else none
  | [] => none

/-- `%M` directive: alternatives `[0-5][0-9]`, `[0-9]`. -/
def parseMin : List Char → Option (Nat × List Char)
  | a :: b :: rest =>
    if ('0' ≤ a ∧ a ≤ '5') ∧ b.isDigit then some (digitVal a * 10 + digitVal b, rest)
    else if a.isDigit then some (digitVal a, b :: rest)
    else none
  | [a] => if a.isDigit then some (digitVal a, []) else none
  | [] => none

/-- `%S` directive: alternatives `6[0-1]`, `[0-5][0-9]`, `[0-9]`. -/
def parseSec : List Char → Option (Nat × List Char)
  | '6' :: c :: rest =>
    if c = '0' ∨ c = '1' then some (60 + digitVal c, rest)
    else some (6, c :: rest)
  | a :: b :: rest =>
    if ('0' ≤ a ∧ a ≤ '5') ∧ b.isDigit then some (digitVal a * 10 + digitVal b, rest)
    else if a.isDigit then some (digitVal a, b :: rest)
    else none
  | [a] => if a.isDigit then some (digitVal a, []) else none
  | [] => none

/-- A literal character of the format string. -/
def parseLit (c : Char) : List Char → Option (List Char)
  | x :: rest => if x = c then some rest else none
  | [] => none

/-- Length of a month, as validated by the `datetime` constructor. -/
def daysInMonth (y m : Nat) : Nat :=
  if m = 2 then (if y % 4 = 0 ∧ (y % 100 ≠ 0 ∨ y % 400 = 0) then 29 else 28)
  else if m = 4 ∨ m = 6 ∨ m = 9 ∨ m = 11 then 30
  else 31

/-- `datetime.strptime(s, "%Y-%m-%dT%H:%M:%S")`. Returns `none` exactly when
CPython raises `ValueError`: the directives fail to match, data remains after
the match, or the matched fields do not form a valid `datetime` (year 0,
day past the end of the month, leap second). -/
def strptimeIso (s : String) : Option DT := do
  let (y, r1) ← parseY s.data
  let r2 ← parseLit '-' r1
  let (mo, r3) ← parseMonth r2
  let r4 ← parseLit '-' r3
  let (d, r5) ← parseDay r4
  let r6 ← parseLit 'T' r5
  let (h, r7) ← parseHour r6
  let r8 ← parseLit ':' r7
  let (mi, r9) ← parseMin r8
  let r10 ← parseLit ':' r9
  let (sec, r11) ← parseSec r10
  if r11 ≠ [] then none
  else if y = 0 then none
  else if d > daysInMonth y mo then none
  else if sec > 59 then none
  else some ⟨y, mo, d, h, mi, sec⟩

/-- Zero-padding to width 2, as the `strftime` directives `%d` `%m` `%H` `%M`
do. -/
def pad2 (n : Nat) : String := if n < 10 then "0" ++ toString n else toString n

/-- `strftime("%d/%m %H:%M")`. -/
def strftimeDmHm (t : DT) : String :=
  pad2 t.day ++ "/" ++ pad2 t.month ++ " " ++ pad2 t.hour ++ ":" ++ pad2 t.minute

/-- `s.split(".")[0]`: the part of `s` before the first dot (all of `s` when
there is none). -/
def splitDotHead (s : String) : String := ⟨s.data.takeWhile (fun c => c ≠ '.')⟩

/-- `STATUS_MAP.get(k)`: the status-vocabulary dictionary of the script, as a
partial lookup. -/
def STATUS_MAP (k : String) : Option String :=
  if k = "operational" then some "operational"
  else if k = "degraded_performance" then some "degraded"
  else if k = "partial_outage" then some "degraded"
  else if k = "major_outage" then some "investigating"
  else if k = "under_maintenance" then some "scheduled"
  else if k = "investigating" then some "investigating"
  else none

/-- `STATUS_MAP.get(k, d)`: dictionary lookup with default. -/
def statusMapGet (k d : String) : String := (STATUS_MAP k).getD d

/-- The `STATUS_PAGES` configuration dictionary: provider name → base URL. -/
def STATUS_PAGES : List (String × String) :=
  [("AnyMarket", "https://status.anymarket.com.br"),
   ("PagSeguro", "https://status.pagbank.com.br"),
   ("Pagar.me", "https://status.pagar.me")]

/-- An entry of the `incidents` list of a summary response, with the fields
the code reads. -/
structure SPIncident where
  status : String
  name : String
  created_at : String
deriving Repr, DecidableEq

/-- An entry of the `scheduled_maintenances` list of a summary response. -/
structure SPMaintenance where
  status : String
  name : String
  scheduled_for : String
deriving Repr, DecidableEq

/-- The `status` object of a summary response. -/
structure SPStatus where
  indicator : String
  description : String
deriving Repr, DecidableEq

/-- A parsed `summary.json` body. A missing `incidents` or
`scheduled_maintenances` key (the code reads them with `data.get(k, [])`)
is modelled as the empty list. -/
structure Summary where
  status : SPStatus
  incidents : List SPIncident
  scheduled_maintenances : List SPMaintenance
deriving Repr, DecidableEq

/-- An incident record of the output document: the dictionaries the code
appends to its `incidents` list. -/
structure Incident where
  title : String
  status : String
  time : String
  new : Bool
deriving Repr, DecidableEq

/-- Outcome of the HTTP GET of `api/v2/summary.json`: either the parsed body,
or a `requests.exceptions.RequestException` (connection failure, timeout, or
`raise_for_status` on a non-2xx response). -/
inductive FetchOutcome where
  | ok (data : Summary)
  | netErr (msg : String)
deriving Repr, DecidableEq

/-- The lifecycle statuses kept from the `incidents` list. -/
def keptIncidentStatuses : List String :=
  ["investigating", "identified", "monitoring", "in_progress"]

/-- The lifecycle statuses kept from the `scheduled_maintenances` list. -/
def keptMaintenanceStatuses : List String := ["scheduled", "in_progress"]

/-- `datetime.strptime(raw.split(".")[0], "%Y-%m-%dT%H:%M:%S")
.strftime("%d/%m %H:%M")`: the timestamp-formatting pipeline applied to
`created_at` / `scheduled_for`. A parse failure is the `ValueError` that
`strptime` raises. -/
def formatEventTime (raw : String) : Except PyError String :=
  match strptimeIso (splitDotHead raw) with
  | some t => .ok (strftimeDmHm t)
  | none => .error (.valueError (splitDotHead raw))

/-- The loop over `data.get("incidents", [])`: keep entries whose status is in
`keptIncidentStatuses`, build the output record for each; the first
`ValueError` from `strptime` aborts the whole call. -/
def processIncidents : List SPIncident → Except PyError (List Incident)
  | [] => .ok []
  | inc :: rest =>
    if keptIncidentStatuses.contains inc.status then
      match formatEventTime inc.created_at with
      | .error e => .error e
      | .ok t =>
        match processIncidents rest with
        | .error e => .error e
        | .ok tail =>
          .ok ({ title := inc.name, status := statusMapGet inc.status "investigating",
                 time := t, new := true } :: tail)
    else processIncidents rest

/-- The loop over `data.get("scheduled_maintenances", [])`: keep entries whose
status is in `keptMaintenanceStatuses`; all get status `"scheduled"`. -/
def processMaintenances : List SPMaintenance → Except PyError (List Incident)
  | [] => .ok []
  | m :: rest =>
    if keptMaintenanceStatuses.contains m.status then
      match formatEventTime m.scheduled_for with
      | .error e => .error e
      | .ok t =>
        match processMaintenances rest with
        | .error e => .error e
        | .ok tail =>
          .ok ({ title := m.name, status := "scheduled", time := t, new := true } :: tail)
    else processMaintenances rest

/-- The synthetic incident returned by the `except RequestException` branch. -/
def fetchErrorIncident (now : DT) : Incident :=
  { title := "Erro ao carregar status. Dados podem estar desatualizados.",
    status := "degraded", time := strftimeDmHm now, new := true }

/-- `fetch_status_page_data(base_url)`. The HTTP request and `response.json()`
are modelled by the `res` argument; `datetime.now()` by the `now` argument.
`Except.error` is an exception escaping the function (only `ValueError` from
`strptime` can). -/
def fetch_status_page_data (res : FetchOutcome) (now : DT) :
    Except PyError (List Incident) :=
  match res with
  | .netErr _ => .ok [fetchErrorIncident now]
  | .ok data =>
    match processIncidents data.incidents with
    | .error e => .error e
    | .ok incs =>
      match processMaintenances data.scheduled_maintenances with
      | .error e => .error e
      | .ok maints =>
        if (incs ++ maints).isEmpty then
          .ok [{ title := data.status.description,
                 status := statusMapGet data.status.indicator "operational",
                 time := strftimeDmHm now, new := false }]
        else .ok (incs ++ maints)

/-- A record of the `STATES_DATA` list: `{"uf": ..., "status": ...}`. -/
structure RegionStatus where
  uf : String
  status : String
deriving Repr, DecidableEq

/-- Outcome of the GET of the SEFAZ monitor endpoint. On success the body is
a JSON object keyed by region code; each value is an object whose `status`
key (read with `.get("status")`) holds a boolean, or is missing (`none`). -/
inductive SefazOutcome where
  | ok (data : List (String × Option Bool))
  | netErr (msg : String)
deriving Repr, DecidableEq

/-- `"up" if status_info.get("status") else "slow"`: a present `True` is
truthy; `False` and a missing key (Python `None`) are falsy. -/
def regionStatusOf (v : Option Bool) : String :=
  if v.getD false then "up" else "slow"

/-- The hardcoded fallback list of the `except RequestException` branch of
`fetch_sefaz_status`. -/
def sefazFallback : List RegionStatus :=
  [⟨"AC", "up"⟩, ⟨"AL", "up"⟩, ⟨"AP", "up"⟩, ⟨"AM", "up"⟩,
   ⟨"BA", "up"⟩, ⟨"CE", "slow"⟩, ⟨"DF", "up"⟩, ⟨"ES", "up"⟩,
   ⟨"GO", "up"⟩, ⟨"MA", "up"⟩, ⟨"MT", "up"⟩, ⟨"MS", "up"⟩,
   ⟨"MG", "up"⟩, ⟨"PA", "up"⟩, ⟨"PB", "up"⟩, ⟨"PR", "up"⟩,
   ⟨"PE", "up"⟩, ⟨"PI", "up"⟩, ⟨"RJ", "up"⟩, ⟨"RN", "up"⟩,
   ⟨"RS", "up"⟩, ⟨"RO", "up"⟩, ⟨"RR", "up"⟩, ⟨"SC", "up"⟩,
   ⟨"SP", "up"⟩, ⟨"SE", "up"⟩, ⟨"TO", "up"⟩]

/-- `fetch_sefaz_status()`. The loop `for uf, status_info in data.items()`
appends one record per key, in iteration order, to `states_data`. -/
def fetch_sefaz_status (res : SefazOutcome) : List RegionStatus :=
  match res with
  | .ok data =>
    data.foldl (fun acc kv => acc ++ [⟨kv.1, regionStatusOf kv.2⟩]) []
  | .netErr _ => sefazFallback

/-- A value of the output dictionary `output_data`. -/
inductive SnapVal where
  | realData (m : List (String × List Incident))
  | statesData (l : List RegionStatus)
deriving Repr, DecidableEq

/-- The loop `for name, url in STATUS_PAGES.items(): real_data[name] = ...`:
builds the `real_data` dictionary (as an association list in insertion
order). An exception escaping any `fetch_status_page_data` call aborts the
run. -/
def buildRealData (fetchP : String → FetchOutcome) (now : DT) :
    List (String × String) → Except PyError (List (String × List Incident))
  | [] => .ok []
  | (name, url) :: rest =>
    match fetch_status_page_data (fetchP url) now with
    | .error e => .error e
    | .ok incs =>
      match buildRealData fetchP now rest with
      | .error e => .error e
      | .ok tail => .ok ((name, incs) :: tail)

/-- `main()` up to the point where `output_data` exists: the document that is
then serialized to the output file. The dictionary literal has exactly the
keys `"REAL_DATA"` and `"STATES_DATA"`, modelled as an association list. -/
def main (fetchP : String → FetchOutcome) (fetchS : SefazOutcome) (now : DT) :
    Except PyError (List (String × SnapVal)) :=
  match buildRealData fetchP now STATUS_PAGES with
  | .error e => .error e
  | .ok real_data =>
    .ok [("REAL_DATA", .realData real_data),
         ("STATES_DATA", .statesData (fetch_sefaz_status fetchS))]

/-! ### Helper lemmas -/

/-- The closed status vocabulary of the output incidents. -/
def incidentStatusSet : List String :=
  ["operational", "degraded", "investigating", "scheduled"]

/-- Looking a key up in `STATUS_MAP` with a default drawn from the closed
vocabulary stays inside the closed vocabulary. -/
theorem statusMapGet_mem_of (k d : String) (hd : d ∈ incidentStatusSet) :
    statusMapGet k d ∈ incidentStatusSet := by
  unfold statusMapGet STATUS_MAP
  split_ifs <;> simp only [Option.getD_some, Option.getD_none] <;>
    first | decide | exact hd

/-- Every status kept from the incident list maps (through `STATUS_MAP` with
default `"investigating"`) to `"investigating"`. -/
theorem statusMapGet_of_kept {s : String}
    (h : keptIncidentStatuses.contains s = true) :
    statusMapGet s "investigating" = "investigating" := by
  have hm : s ∈ keptIncidentStatuses := by simpa using h
  fin_cases hm <;> rfl

/-- Records produced by the incident loop all carry status
`"investigating"`. -/
theorem processIncidents_status : ∀ (l : List SPIncident) (out : List Incident),
    processIncidents l = .ok out → ∀ r ∈ out, r.status = "investigating" := by
  intro l
  induction l with
  | nil =>
    intro out h r hr
    simp only [processIncidents] at h
    cases h
    simp at hr
  | cons a rest ih =>
    intro out h r hr
    simp only [processIncidents] at h
    split at h
    next hc =>
      split at h
      next => simp at h
      next t hft =>
        split at h
        next => simp at h
        next tail hrec =>
          cases h
          rcases List.mem_cons.mp hr with h1 | h2
          · subst h1
            exact statusMapGet_of_kept hc
          · exact ih tail hrec r h2
    next => exact ih out h r hr

/-- Records produced by the maintenance loop all carry status
`"scheduled"`. -/
theorem processMaintenances_status : ∀ (l : List SPMaintenance) (out : List Incident),
    processMaintenances l = .ok out → ∀ r ∈ out, r.status = "scheduled" := by
  intro l
  induction l with
  | nil =>
    intro out h r hr
    simp only [processMaintenances] at h
    cases h
    simp at hr
  | cons a rest ih =>
    intro out h r hr
    simp only [processMaintenances] at h
    split at h
    next hc =>
      split at h
      next => simp at h
      next t hft =>
        split at h
        next => simp at h
        next tail hrec =>
          cases h
          rcases List.mem_cons.mp hr with h1 | h2
          · subst h1
            rfl
          · exact ih tail hrec r h2
    next => exact ih out h r hr

/-- When no entry of the incident list has a kept lifecycle status, the
incident loop contributes nothing. -/
theorem processIncidents_eq_nil : ∀ (l : List SPIncident),
    (∀ i ∈ l, keptIncidentStatuses.contains i.status = false) →
    processIncidents l = .ok [] := by
  intro l
  induction l with
  | nil => intro _; rfl
  | cons a rest ih =>
    intro h
    simp only [processIncidents]
    rw [if_neg]
    · exact ih (fun i hi => h i (List.mem_cons_of_mem _ hi))
    · exact ne_true_of_eq_false (h a (List.mem_cons_self a rest))

/-- When no entry of the maintenance list has a kept lifecycle status, the
maintenance loop contributes nothing. -/
theorem processMaintenances_eq_nil : ∀ (l : List SPMaintenance),
    (∀ m ∈ l, keptMaintenanceStatuses.contains m.status = false) →
    processMaintenances l = .ok [] := by
  intro l
  induction l with
  | nil => intro _; rfl
  | cons a rest ih =>
    intro h
    simp only [processMaintenances]
    rw [if_neg]
    · exact ih (fun m hm => h m (List.mem_cons_of_mem _ hm))
    · exact ne_true_of_eq_false (h a (List.mem_cons_self a rest))

/-- Any list `fetch_status_page_data` returns is non-empty. -/
theorem fetch_ok_ne_nil : ∀ (res : FetchOutcome) (now : DT) (l : List Incident),
    fetch_status_page_data res now = .ok l → l ≠ [] := by
  intro res now l h
  cases res with
  | netErr m =>
    simp only [fetch_status_page_data] at h
    cases h
    simp
  | ok data =>
    simp only [fetch_status_page_data] at h
    split at h
    · simp at h
    · split at h
      · simp at h
      · split at h
        · cases h
          simp
        · rename_i hne
          cases h
          intro hnil
          exact hne (by simp [hnil])

/-- Every status in a list returned by `fetch_status_page_data` lies in the
closed vocabulary. -/
theorem fetch_status_mem : ∀ (res : FetchOutcome) (now : DT) (l : List Incident),
    fetch_status_page_data res now = .ok l →
    ∀ r ∈ l, r.status ∈ incidentStatusSet := by
  intro res now l h r hr
  cases res with
  | netErr m =>
    simp only [fetch_status_page_data] at h
    cases h
    simp at hr
    subst hr
    simp [fetchErrorIncident, incidentStatusSet]
  | ok data =>
    simp only [fetch_status_page_data] at h
    split at h
    next => simp at h
    next incs hI =>
      split at h
      next => simp at h
      next maints hM =>
        split at h
        next =>
          cases h
          simp at hr
          subst hr
          exact statusMapGet_mem_of _ _ (by decide)
        next =>
          cases h
          rcases List.mem_append.mp hr with h1 | h2
          · rw [processIncidents_status _ _ hI r h1]
            decide
          · rw [processMaintenances_status _ _ hM r h2]
            decide

/-- The append-loop of `fetch_sefaz_status`, as a `foldl`, equals a `map`
prefixed by the accumulator. -/
theorem sefaz_foldl_eq (l : List (String × Option Bool)) :
    ∀ acc : List RegionStatus,
      l.foldl (fun a kv => a ++ [⟨kv.1, regionStatusOf kv.2⟩]) acc
        = acc ++ l.map (fun kv => (⟨kv.1, regionStatusOf kv.2⟩ : RegionStatus)) := by
  induction l with
  | nil => intro acc; simp
  | cons x xs ih => intro acc; simp [ih, List.append_assoc]

/-- On a successful regional fetch, the result is a `map` over the response
entries in order. -/
theorem fetch_sefaz_ok_eq (data : List (String × Option Bool)) :
    fetch_sefaz_status (.ok data)
      = data.map (fun kv => (⟨kv.1, regionStatusOf kv.2⟩ : RegionStatus)) := by
  simpa using sefaz_foldl_eq data []

/-- `buildRealData` keeps one entry per configured provider, keyed by
provider name, in configuration order. -/
theorem buildRealData_keys (fetchP : String → FetchOutcome) (now : DT) :
    ∀ (cfg : List (String × String)) (rd : List (String × List Incident)),
      buildRealData fetchP now cfg = .ok rd →
      rd.map Prod.fst = cfg.map Prod.fst := by
  intro cfg
  induction cfg with
  | nil =>
    intro rd h
    simp only [buildRealData] at h
    cases h
    simp
  | cons p rest ih =>
    intro rd h
    obtain ⟨name, url⟩ := p
    simp only [buildRealData] at h
    split at h
    · simp at h
    · split at h
      · simp at h
      · rename_i tail htail
        cases h
        simp [ih tail htail]

/-! ### Claims -/

/-- Claim C1: for every fetch outcome, a list returned by
`fetch_status_page_data` is non-empty (active incidents, maintenances,
empty-after-filter synthetic and fetch-failure synthetic paths alike), and a
network-class error never escapes the function: the network-failure outcome
always yields a normal return, never a raised error. -/
theorem claim_C1 :
    (∀ (res : FetchOutcome) (now : DT) (l : List Incident),
        fetch_status_page_data res now = .ok l → l ≠ []) ∧
    (∀ (msg : String) (now : DT) (e : PyError),
        fetch_status_page_data (.netErr msg) now ≠ .error e) := by
  constructor
  · exact fetch_ok_ne_nil
  · intro msg now e h
    simp [fetch_status_page_data] at h

/-- Witness for C1 at a concrete failed fetch. -/
theorem claim_C1_witness :
    ([fetchErrorIncident ⟨2024, 1, 2, 3, 4, 5⟩] : List Incident) ≠ [] :=
  claim_C1.1 (.netErr "timeout") ⟨2024, 1, 2, 3, 4, 5⟩ _ rfl

/-- Claim C2: a network-class failure of the HTTP fetch is caught and turned
into exactly one synthetic incident: the generic degraded-data warning title,
status `"degraded"`, the current time formatted `%d/%m %H:%M`, and
`new = true`. -/
theorem claim_C2 : ∀ (msg : String) (now : DT),
    fetch_status_page_data (.netErr msg) now =
      .ok [{ title := "Erro ao carregar status. Dados podem estar desatualizados.",
             status := "degraded", time := strftimeDmHm now, new := true }] :=
  fun _ _ => rfl

/-- Claim C3: when the incident and maintenance lists contribute nothing
after filtering, exactly one synthetic incident is returned: title is the
overall status description, status is the overall indicator mapped through
`STATUS_MAP` (defaulting to `"operational"` for unrecognized indicators),
time is the current time, and `new = false`. -/
theorem claim_C3 :
    (∀ (d : Summary) (now : DT),
        d.incidents.filter (fun i => keptIncidentStatuses.contains i.status) = [] →
        d.scheduled_maintenances.filter
            (fun m => keptMaintenanceStatuses.contains m.status) = [] →
        fetch_status_page_data (.ok d) now =
          .ok [{ title := d.status.description,
                 status := statusMapGet d.status.indicator "operational",
                 time := strftimeDmHm now, new := false }]) ∧
    (∀ k, STATUS_MAP k = none → statusMapGet k "operational" = "operational") := by
  constructor
  · intro d now h1 h2
    have hI := processIncidents_eq_nil d.incidents (fun i hi => by
      simpa using List.filter_eq_nil_iff.mp h1 i hi)
    have hM := processMaintenances_eq_nil d.scheduled_maintenances (fun m hm => by
      simpa using List.filter_eq_nil_iff.mp h2 m hm)
    simp [fetch_status_page_data, hI, hM]
  · intro k hk
    simp [statusMapGet, hk]

/-- Witness for C3: indicator `"major_outage"` with description `"X down"`
and empty incident/maintenance lists yields title `"X down"`, status
`"investigating"`, `new = false`. -/
theorem claim_C3_witness :
    fetch_status_page_data
        (.ok ⟨⟨"major_outage", "X down"⟩, [], []⟩) ⟨2024, 1, 2, 3, 4, 5⟩ =
      .ok [⟨"X down", "investigating", "02/01 03:04", false⟩] :=
  (claim_C3.1 ⟨⟨"major_outage", "X down"⟩, [], []⟩ ⟨2024, 1, 2, 3, 4, 5⟩ rfl rfl).trans
    (by rfl)

/-- Claim C4: a network-class failure of the regional fetch returns the fixed
fallback list: exactly 27 region records, 26 with status `"up"` and exactly
one with status `"slow"`. -/
theorem claim_C4 : ∀ (msg : String),
    fetch_sefaz_status (.netErr msg) = sefazFallback ∧
    sefazFallback.length = 27 ∧
    sefazFallback.countP (fun r => r.status == "up") = 26 ∧
    sefazFallback.countP (fun r => r.status == "slow") = 1 :=
  fun _ => ⟨rfl, by decide, by decide, by decide⟩

/-- Claim C5: every incident record produced by `fetch_status_page_data` has
a status in the closed set `{operational, degraded, investigating,
scheduled}`, and every region record produced by `fetch_sefaz_status` has a
status in `{up, slow}`. -/
theorem claim_C5 :
    (∀ (res : FetchOutcome) (now : DT) (l : List Incident),
        fetch_status_page_data res now = .ok l →
        ∀ r ∈ l, r.status ∈ ["operational", "degraded", "investigating", "scheduled"]) ∧
    (∀ (sres : SefazOutcome),
        ∀ r ∈ fetch_sefaz_status sres, r.status ∈ ["up", "slow"]) := by
  constructor
  · intro res now l h r hr
    exact fetch_status_mem res now l h r hr
  · intro sres r hr
    cases sres with
    | ok data =>
      rw [fetch_sefaz_ok_eq] at hr
      rcases List.mem_map.mp hr with ⟨kv, _, hkv⟩
      subst hkv
      simp only [regionStatusOf]
      split <;> simp
    | netErr m =>
      exact (by decide : ∀ x ∈ sefazFallback, x.status ∈ ["up", "slow"]) r hr

/-- Witness for C5 at a concrete failed provider fetch and a concrete
fallback region record. -/
theorem claim_C5_witness :
    (fetchErrorIncident ⟨2024, 1, 2, 3, 4, 5⟩).status
        ∈ ["operational", "degraded", "investigating", "scheduled"] ∧
    (⟨"CE", "slow"⟩ : RegionStatus).status ∈ ["up", "slow"] :=
  ⟨claim_C5.1 (.netErr "down") ⟨2024, 1, 2, 3, 4, 5⟩ _ rfl _ (List.mem_cons_self _ _),
   claim_C5.2 (.netErr "down") ⟨"CE", "slow"⟩ (by decide)⟩

/-- Claim C6: a kept incident with lifecycle status `"identified"` and
`created_at = "2024-01-02T03:04:05.000Z"` is emitted with time string exactly
`"02/01 03:04"`: the timestamp is truncated at the first dot and rendered as
day/month hour:minute. -/
theorem claim_C6 :
    splitDotHead "2024-01-02T03:04:05.000Z" = "2024-01-02T03:04:05" ∧
    formatEventTime "2024-01-02T03:04:05.000Z" = .ok "02/01 03:04" ∧
    (∀ now : DT,
      fetch_status_page_data
          (.ok ⟨⟨"operational", "All Systems Operational"⟩,
                [⟨"identified", "Incident A", "2024-01-02T03:04:05.000Z"⟩], []⟩) now =
        .ok [⟨"Incident A", "investigating", "02/01 03:04", true⟩]) :=
  ⟨rfl, rfl, fun _ => rfl⟩

/-- Claim C7: a successful regional fetch yields exactly one record per key
of the response object, in iteration order, mapping a truthy health flag to
`"up"` and a falsy or missing flag to `"slow"`. -/
theorem claim_C7 : ∀ (data : List (String × Option Bool)),
    fetch_sefaz_status (.ok data)
        = data.map (fun kv => (⟨kv.1, regionStatusOf kv.2⟩ : RegionStatus)) ∧
    (fetch_sefaz_status (.ok data)).length = data.length ∧
    regionStatusOf (some true) = "up" ∧
    regionStatusOf (some false) = "slow" ∧
    regionStatusOf none = "slow" := by
  intro data
  refine ⟨fetch_sefaz_ok_eq data, ?_, rfl, rfl, rfl⟩
  rw [fetch_sefaz_ok_eq]
  simp

/-- Claim C8: the snapshot document assembled by `main` always has exactly
the two top-level keys `"REAL_DATA"` and `"STATES_DATA"`, with `REAL_DATA`
holding one entry per configured provider (keyed by provider name) and
`STATES_DATA` holding the regional records — whatever each individual fetch
outcome was. -/
theorem claim_C8 : ∀ (fetchP : String → FetchOutcome) (fetchS : SefazOutcome)
    (now : DT) (out : List (String × SnapVal)),
    main fetchP fetchS now = .ok out →
    out.map Prod.fst = ["REAL_DATA", "STATES_DATA"] ∧
    ∃ rd : List (String × List Incident),
      out = [("REAL_DATA", .realData rd),
             ("STATES_DATA", .statesData (fetch_sefaz_status fetchS))] ∧
      rd.map Prod.fst = STATUS_PAGES.map Prod.fst := by
  intro fp fs now out h
  simp only [main] at h
  split at h
  next => simp at h
  next rd hrd =>
    cases h
    exact ⟨rfl, rd, rfl, buildRealData_keys fp now STATUS_PAGES rd hrd⟩

/-- Witness for C8 with every fetch failing. -/
theorem claim_C8_witness :
    ([("REAL_DATA", SnapVal.realData
        [("AnyMarket", [fetchErrorIncident ⟨2024, 1, 2, 3, 4, 5⟩]),
         ("PagSeguro", [fetchErrorIncident ⟨2024, 1, 2, 3, 4, 5⟩]),
         ("Pagar.me", [fetchErrorIncident ⟨2024, 1, 2, 3, 4, 5⟩])]),
      ("STATES_DATA", SnapVal.statesData sefazFallback)].map Prod.fst)
      = ["REAL_DATA", "STATES_DATA"] :=
  (claim_C8 (fun _ => .netErr "down") (.netErr "down") ⟨2024, 1, 2, 3, 4, 5⟩ _ rfl).1

/-- Claim C9: every record kept from the incident list is emitted with status
exactly `"investigating"`: of the four kept lifecycle statuses only
`"investigating"` is in `STATUS_MAP`, and the other three fall to the
default. -/
theorem claim_C9 :
    (∀ (l : List SPIncident) (out : List Incident),
        processIncidents l = .ok out → ∀ r ∈ out, r.status = "investigating") ∧
    STATUS_MAP "identified" = none ∧
    STATUS_MAP "monitoring" = none ∧
    STATUS_MAP "in_progress" = none ∧
    STATUS_MAP "investigating" = some "investigating" :=
  ⟨processIncidents_status, rfl, rfl, rfl, rfl⟩

/-- Witness for C9 at a concrete kept incident with status `"identified"`. -/
theorem claim_C9_witness :
    (⟨"Inc B", "investigating", "02/01 03:04", true⟩ : Incident).status
      = "investigating" :=
  claim_C9.1 [⟨"identified", "Inc B", "2024-01-02T03:04:05.000Z"⟩] _ rfl _
    (List.mem_cons_self _ _)

/-- Claim C10: a kept incident whose `created_at` has no fractional-seconds
part (`"2024-01-02T03:04:05Z"`) makes `strptime` fail, and the resulting
`ValueError` escapes `fetch_status_page_data` uncaught, since the `except`
clause only covers network-class request errors. -/
theorem claim_C10 :
    strptimeIso "2024-01-02T03:04:05Z" = none ∧
    (∀ now : DT,
      fetch_status_page_data
          (.ok ⟨⟨"operational", "All Systems Operational"⟩,
                [⟨"identified", "Incident C", "2024-01-02T03:04:05Z"⟩], []⟩) now =
        .error (.valueError "2024-01-02T03:04:05Z")) :=
  ⟨rfl, fun _ => rfl⟩

end StatusFetcher
